import Mathlib

/-!
Verification of `src/basic02-prog-by-name/xdp_loader.c` (XDP loader).

The C program is embedded shallowly: the outcomes of the external
libbpf / kernel calls (`bpf_prog_load_xattr`, `bpf_set_link_xdp_fd`,
`bpf_obj_get_info_by_fd`) are supplied by an environment record `Env`,
and each modelled function returns its result together with a trace of
events: console lines and the external calls it performed, in order.
String output abstracts the `strerror`/numeric parts of `fprintf`
format strings but keeps the fixed prefixes and the embedded names.
-/

/-! ## Platform constants (from `linux/if_link.h` and `errno.h`) -/

/-- `XDP_FLAGS_UPDATE_IF_NOEXIST` from `linux/if_link.h`: refuse to replace
an existing attachment. -/
def XDP_FLAGS_UPDATE_IF_NOEXIST : Nat := 1

/-- `XDP_FLAGS_SKB_MODE` from `linux/if_link.h`. -/
def XDP_FLAGS_SKB_MODE : Nat := 2

/-- `XDP_FLAGS_DRV_MODE` from `linux/if_link.h`. -/
def XDP_FLAGS_DRV_MODE : Nat := 4

/-- `XDP_FLAGS_HW_MODE` from `linux/if_link.h`. -/
def XDP_FLAGS_HW_MODE : Nat := 8

/-- `EBUSY` from `errno.h`. -/
def EBUSY : Int := 16

/-- `EOPNOTSUPP` from `errno.h`. -/
def EOPNOTSUPP : Int := 95

/-! ## Exit codes

Modelled from the spec: the exit-code constants `EXIT_OK`,
`EXIT_FAIL_OPTION`, `EXIT_FAIL_XDP`, `EXIT_FAIL_BPF` are defined in
`common_user.h`, which is not under `src/`; the spec (section 6) only
requires a small enumerated set of stable, pairwise distinct codes for
success, option/configuration failure, attachment-layer failure and
load/selection failure. -/

/-- Success exit code. -/
def EXIT_OK : Int := 0

/-- Option/configuration failure exit code. -/
def EXIT_FAIL_OPTION : Int := 2

/-- Attachment-layer (XDP) failure exit code. -/
def EXIT_FAIL_XDP : Int := 30

/-- Load/selection (BPF) failure exit code. -/
def EXIT_FAIL_BPF : Int := 40

/-! ## Data model -/

/-- One entry point ("program") inside a loaded BPF object: its section
title, whether it is an XDP program (`bpf_program__is_xdp`), and the
fd handle the kernel assigned to it (`bpf_program__fd`). -/
structure BpfProgram where
  title : String
  isXdp : Bool
  fd : Int
deriving DecidableEq, Repr

/-- A loaded BPF object (`struct bpf_object`): its name and the list of
programs it contains, in object order. -/
structure BpfObject where
  name : String
  programs : List BpfProgram
deriving DecidableEq, Repr

/-- `struct bpf_prog_info` as used by the program: name and id. -/
structure BpfProgInfo where
  name : String
  id : Nat
deriving DecidableEq, Repr

/-- `struct config` (fields of `common_user.h`'s record that
`xdp_loader.c` reads): the attachment-mode bitmask, resolved interface
index, unload request, object filename, program name, interface name. -/
structure Config where
  xdp_flags : Nat
  ifindex : Int
  do_unload : Bool
  filename : String
  progname : String
  ifname : String
deriving DecidableEq, Repr

/-- Outcomes of the external libbpf / kernel calls, supplied as an
environment: `loadObj` models `bpf_prog_load_xattr` (the loaded object,
or `none` on error), `setLink` models `bpf_set_link_xdp_fd` (the
returned error code, `< 0` on failure), `getInfo` models
`bpf_obj_get_info_by_fd` (error code and the filled `bpf_prog_info`). -/
structure Env where
  loadObj : String → Option BpfObject
  setLink : Int → Int → Nat → Int
  getInfo : Int → Int × BpfProgInfo

/-- Trace events: stdout lines, stderr lines, the per-program lines
printed by `print_avail_progs`, and the external calls with their
arguments. -/
inductive Event where
  | outLine (s : String)
  | errLine (s : String)
  | availProg (title : String)
  | callLoadObj (filename : String)
  | callFindProg (name : String)
  | callSetLink (ifindex : Int) (fd : Int) (flags : Nat)
  | callGetInfo (fd : Int)
deriving DecidableEq, Repr

/-- The kind of an external-call event, `none` for console lines. -/
def callKind : Event → Option Nat
  | .callLoadObj _ => some 0
  | .callFindProg _ => some 1
  | .callSetLink _ _ _ => some 2
  | .callGetInfo _ => some 3
  | _ => none

/-- The external-call kinds of a trace, in order (console lines dropped). -/
def callsOf (t : List Event) : List Nat := t.filterMap callKind

/-- The external-call events of a trace, in order. -/
def callEvents (t : List Event) : List Event :=
  t.filter fun e => (callKind e).isSome

/-- The titles printed by `print_avail_progs` within a trace, in order. -/
def availTitles (t : List Event) : List String :=
  t.filterMap fun e => match e with | .availProg s => some s | _ => none

/-! ## The program, function by function -/

/-- `load_bpf_object_file` (lines 34-56): load the BPF-ELF object via
`bpf_prog_load_xattr` with `prog_type = BPF_PROG_TYPE_XDP`; on error
print a diagnostic and return NULL. -/
def load_bpf_object_file (env : Env) (filename : String) :
    Option BpfObject × List Event :=
  match env.loadObj filename with
  | none =>
      (none, [.callLoadObj filename,
              .errLine ("ERR: loading BPF-OBJ file(" ++ filename ++ ")")])
  | some obj => (some obj, [.callLoadObj filename])

/-- `xdp_unload` (lines 58-68): `bpf_set_link_xdp_fd(ifindex, -1, xdp_flags)`;
on failure print a diagnostic and return `EXIT_FAIL_XDP`, else `EXIT_OK`. -/
def xdp_unload (env : Env) (ifindex : Int) (xdp_flags : Nat) :
    Int × List Event :=
  let err := env.setLink ifindex (-1) xdp_flags
  if err < 0 then
    (EXIT_FAIL_XDP,
     [.callSetLink ifindex (-1) xdp_flags,
      .errLine "ERR: link set xdp unload failed"])
  else
    (EXIT_OK, [.callSetLink ifindex (-1) xdp_flags])

/-- The `switch (-err)` of `xdp_load` (lines 80-91): the hint printed
after an attach failure, keyed on the positive errno value; `EBUSY` and
`EOPNOTSUPP` have hints, every other code falls to the empty default. -/
def hintFor (e : Int) : Option String :=
  if e = EBUSY then
    some "Hint: XDP already loaded on device use --force to swap/replace"
  else if e = EOPNOTSUPP then
    some "Hint: Native-XDP not supported use --skb-mode or --auto-mode"
  else
    none

/-- `xdp_load` (lines 70-96): `bpf_set_link_xdp_fd(cfg.ifindex, prog_fd,
cfg.xdp_flags)`; on failure print a diagnostic plus the errno-keyed hint
and return `EXIT_FAIL_XDP`, else `EXIT_OK`. -/
def xdp_load (env : Env) (cfg : Config) (prog_fd : Int) :
    Int × List Event :=
  let err := env.setLink cfg.ifindex prog_fd cfg.xdp_flags
  if err < 0 then
    (EXIT_FAIL_XDP,
     [Event.callSetLink cfg.ifindex prog_fd cfg.xdp_flags,
      Event.errLine ("ERR: dev:" ++ cfg.ifname ++ " link set xdp fd failed")]
       ++ (hintFor (-err)).toList.map Event.errLine)
  else
    (EXIT_OK, [Event.callSetLink cfg.ifindex prog_fd cfg.xdp_flags])

/-- `print_avail_progs` (lines 98-106): for each program of the object,
print its title iff `bpf_program__is_xdp` holds. -/
def print_avail_progs (obj : BpfObject) : List Event :=
  (obj.programs.filter fun p => p.isXdp).map fun p => .availProg p.title

/-- `bpf_object__find_program_by_title`: first program of the object
whose section title equals the requested name (no filtering on the
program's kind). -/
def bpf_object__find_program_by_title (obj : BpfObject) (title : String) :
    Option BpfProgram :=
  obj.programs.find? fun p => p.title == title

/-- The initializer of `cfg` in `main` (lines 118-125): default flags
`XDP_FLAGS_UPDATE_IF_NOEXIST | XDP_FLAGS_DRV_MODE`, unresolved ifindex,
no unload, default filename and progname. -/
def defaultConfig : Config :=
  { xdp_flags := XDP_FLAGS_UPDATE_IF_NOEXIST ||| XDP_FLAGS_DRV_MODE
    ifindex := -1
    do_unload := false
    filename := "xdp_prog_kern.o"
    progname := "xdp_pass"
    ifname := "" }

/-- `main` (lines 108-184), from the point where the configuration is
fully built (i.e. after `parse_cmdline_args` returned): print the
filename/progname line; fail with `EXIT_FAIL_OPTION` if `ifindex` is
unresolved; on `do_unload` run `xdp_unload` only; otherwise load the
object, print its name and the available XDP programs, find the
requested program by title, take its fd (failing with `EXIT_FAIL_BPF`
when absent or the fd is not strictly positive), attach via `xdp_load`,
then query `bpf_obj_get_info_by_fd` — whose failure is returned as the
exit code — and finally print the success line. -/
def xdpMain (env : Env) (cfg : Config) : Int × List Event :=
  let t0 : List Event :=
    [.outLine ("filename:" ++ cfg.filename ++ " progname:" ++ cfg.progname)]
  if cfg.ifindex = -1 then
    (EXIT_FAIL_OPTION, t0 ++ [.errLine "ERR: required option --dev missing"])
  else if cfg.do_unload then
    let r := xdp_unload env cfg.ifindex cfg.xdp_flags
    (r.1, t0 ++ r.2)
  else
    let l := load_bpf_object_file env cfg.filename
    match l.1 with
    | none =>
        (EXIT_FAIL_BPF,
         t0 ++ l.2 ++ [.errLine ("ERR: loading file: " ++ cfg.filename)])
    | some obj =>
        let t1 := t0 ++ l.2
          ++ [.outLine ("XXX: bpf_object__name:" ++ obj.name)]
          ++ print_avail_progs obj
          ++ [.callFindProg cfg.progname]
        match bpf_object__find_program_by_title obj cfg.progname with
        | none =>
            (EXIT_FAIL_BPF,
             t1 ++ [.errLine ("ERR: finding progname: " ++ cfg.progname)])
        | some bpf_prog =>
            let prog_fd := bpf_prog.fd
            if prog_fd ≤ 0 then
              (EXIT_FAIL_BPF, t1 ++ [.errLine "ERR: bpf_program__fd failed"])
            else
              let r := xdp_load env cfg prog_fd
              if r.1 ≠ 0 then
                (r.1, t1 ++ r.2)
              else
                let g := env.getInfo prog_fd
                let t2 := t1 ++ r.2 ++ [Event.callGetInfo prog_fd]
                if g.1 ≠ 0 then
                  (g.1, t2 ++ [.errLine "ERR: can't get prog info"])
                else
                  (EXIT_OK,
                   t2 ++ [.outLine
                     ("Success: Loading XDP prog name:" ++ g.2.name
                       ++ " on device:" ++ cfg.ifname)])

/-! ## Mode resolution (spec-modelled) -/

/-- The operator mode flags consumed by mode resolution. -/
structure Flags where
  skbMode : Bool
  nativeMode : Bool
  autoMode : Bool
  force : Bool
deriving DecidableEq, Repr

/-- Modelled from the spec: `ModeResolver.resolve` (spec section 4.1).
The flag-to-bitmask resolution is performed by `parse_cmdline_args` in
`common_user.h`/`common_params.c`, which is not under `src/`. Per the
spec: `skbMode` and `nativeMode` together are a ConfigError; `autoMode`
combined with either is a ConfigError; otherwise the mode bit is
`SKB_MODE` for skbMode, `DRV_MODE` for nativeMode, no mode bit for
autoMode, and `DRV_MODE` by default; absence of `force` keeps
`XDP_FLAGS_UPDATE_IF_NOEXIST` set (ReplaceIfExists absent). -/
def resolve (f : Flags) : Except String Nat :=
  if f.skbMode && f.nativeMode then
    .error "conflicting mode flags"
  else if f.autoMode && (f.skbMode || f.nativeMode) then
    .error "conflicting mode flags"
  else
    let modeBits :=
      if f.skbMode then XDP_FLAGS_SKB_MODE
      else if f.nativeMode then XDP_FLAGS_DRV_MODE
      else if f.autoMode then 0
      else XDP_FLAGS_DRV_MODE
    let replBits := if f.force then 0 else XDP_FLAGS_UPDATE_IF_NOEXIST
    .ok (modeBits ||| replBits)

/-- Modelled from the spec: the whole command = Configuration → mode
resolution → core (spec sections 5 and 7). A ConfigError from mode
resolution aborts with the option/configuration-failure exit code
before any external call; otherwise the core runs with the resolved
bitmask. -/
def runCommand (env : Env) (f : Flags) (cfg : Config) : Int × List Event :=
  match resolve f with
  | .error _ => (EXIT_FAIL_OPTION, [])
  | .ok flags => xdpMain env { cfg with xdp_flags := flags }

/-! ## Concrete sample data for witnesses and counterexamples -/

/-- A sample XDP entry point with a valid fd. -/
def sampleProg : BpfProgram := { title := "xdp_pass", isXdp := true, fd := 3 }

/-- A sample loaded object holding `sampleProg`. -/
def sampleObj : BpfObject := { name := "xdp_prog_kern", programs := [sampleProg] }

/-- An environment where every external call succeeds. -/
def okEnv : Env :=
  { loadObj := fun _ => some sampleObj
    setLink := fun _ _ _ => 0
    getInfo := fun _ => (0, { name := "xdp_pass", id := 7 }) }

/-- A fully resolved configuration targeting interface 1. -/
def goodConfig : Config :=
  { xdp_flags := 5
    ifindex := 1
    do_unload := false
    filename := "xdp_prog_kern.o"
    progname := "xdp_pass"
    ifname := "eth0" }

/-! ## Claims -/

/-- C1: for every flag set with `skbMode` and `nativeMode` both true, mode
resolution returns a ConfigError ("conflicting mode flags") regardless of
the other flags, the command exits with the option/configuration-failure
code, and no external call (load or attach) is performed. -/
theorem c1_conflicting_mode_flags (env : Env) (f : Flags) (cfg : Config)
    (hs : f.skbMode = true) (hn : f.nativeMode = true) :
    resolve f = .error "conflicting mode flags" ∧
    runCommand env f cfg = (EXIT_FAIL_OPTION, []) := by
  constructor
  · simp [resolve, hs, hn]
  · simp [runCommand, resolve, hs, hn]

/-- Witness for C1 at the concrete flag set (skb, native, no auto, no force). -/
theorem c1_witness :
    resolve ⟨true, true, false, false⟩ = .error "conflicting mode flags" ∧
    runCommand okEnv ⟨true, true, false, false⟩ goodConfig
      = (EXIT_FAIL_OPTION, []) :=
  c1_conflicting_mode_flags okEnv ⟨true, true, false, false⟩ goodConfig rfl rfl

/-- C4: with none of skbMode/nativeMode/autoMode (nor force) set, the
resolved mode equals the `cfg` initializer's default bitmask
`XDP_FLAGS_UPDATE_IF_NOEXIST | XDP_FLAGS_DRV_MODE`: the driver-native
bit (bit 2) is set, the skb (bit 1) and hw (bit 3) bits are clear, and
the refuse-to-replace bit (bit 0) is set, i.e. ReplaceIfExists absent. -/
theorem c4_default_mode :
    resolve ⟨false, false, false, false⟩ = .ok defaultConfig.xdp_flags ∧
    defaultConfig.xdp_flags = XDP_FLAGS_UPDATE_IF_NOEXIST ||| XDP_FLAGS_DRV_MODE ∧
    Nat.testBit defaultConfig.xdp_flags 2 = true ∧
    Nat.testBit defaultConfig.xdp_flags 1 = false ∧
    Nat.testBit defaultConfig.xdp_flags 3 = false ∧
    Nat.testBit defaultConfig.xdp_flags 0 = true := by
  refine ⟨rfl, rfl, ?_, ?_, ?_, ?_⟩ <;> decide

/-- C5: with `ifindex = -1` the command exits with the option-failure exit
code and performs no external call at all: neither the unload path nor the
load/attach path reaches a kernel attachment call. -/
theorem c5_unresolved_ifindex (env : Env) (cfg : Config)
    (h : cfg.ifindex = -1) :
    (xdpMain env cfg).1 = EXIT_FAIL_OPTION ∧
    callsOf (xdpMain env cfg).2 = [] := by
  constructor <;> simp [xdpMain, h, callsOf, callKind]

/-- Witness for C5 at the default configuration, whose ifindex is -1. -/
theorem c5_witness :
    (xdpMain okEnv defaultConfig).1 = EXIT_FAIL_OPTION ∧
    callsOf (xdpMain okEnv defaultConfig).2 = [] :=
  c5_unresolved_ifindex okEnv defaultConfig rfl

/-- C6: the diagnostic translation is the deterministic lookup of the
`switch` in `xdp_load`: `EBUSY` (attachment already present) maps to the
use-force hint, `EOPNOTSUPP` (mode not supported) to the
skb-mode/auto-mode fallback hint, and every other error code to no hint. -/
theorem c6_hint_table :
    hintFor EBUSY
      = some "Hint: XDP already loaded on device use --force to swap/replace" ∧
    hintFor EOPNOTSUPP
      = some "Hint: Native-XDP not supported use --skb-mode or --auto-mode" ∧
    ∀ e : Int, e ≠ EBUSY → e ≠ EOPNOTSUPP → hintFor e = none := by
  refine ⟨rfl, rfl, fun e h1 h2 => ?_⟩
  simp [hintFor, h1, h2]

/-- Witness for C6 at the error code 13 (neither EBUSY nor EOPNOTSUPP). -/
theorem c6_witness : hintFor 13 = none :=
  c6_hint_table.2.2 13 (by decide) (by decide)

/-- C8: detach (`xdp_unload`) performs exactly one kernel call, the same
`bpf_set_link_xdp_fd` operation attach (`xdp_load`) performs, with the
program fd replaced by -1 and exactly the same interface index and mode
bitmask the caller would use for attach. -/
theorem c8_detach_is_attach_with_fd_minus_one (env : Env) (cfg : Config)
    (fd : Int) :
    callEvents (xdp_unload env cfg.ifindex cfg.xdp_flags).2
      = [Event.callSetLink cfg.ifindex (-1) cfg.xdp_flags] ∧
    callEvents (xdp_load env cfg fd).2
      = [Event.callSetLink cfg.ifindex fd cfg.xdp_flags] := by
  constructor
  · unfold xdp_unload callEvents
    by_cases h : env.setLink cfg.ifindex (-1) cfg.xdp_flags < 0 <;>
      simp [h, callKind]
  · unfold xdp_load callEvents
    by_cases h : env.setLink cfg.ifindex fd cfg.xdp_flags < 0 <;>
      rcases hr : hintFor (-(env.setLink cfg.ifindex fd cfg.xdp_flags))
        with _ | s <;>
      simp [h, hr, callKind]

/-! ## Trace helper lemmas -/

/-- `callsOf` distributes over trace concatenation. -/
theorem callsOf_append (s t : List Event) :
    callsOf (s ++ t) = callsOf s ++ callsOf t := by
  simp [callsOf]

/-- `callsOf` on a cons, by cases on the head event. -/
theorem callsOf_cons (e : Event) (t : List Event) :
    callsOf (e :: t)
      = (match callKind e with | some k => [k] | none => []) ++ callsOf t := by
  cases e <;> rfl

/-- `callsOf` of the empty trace. -/
theorem callsOf_nil : callsOf [] = [] := rfl

/-- `availTitles` on a cons, by cases on the head event. -/
theorem availTitles_cons (e : Event) (t : List Event) :
    availTitles (e :: t)
      = (match e with | .availProg s => [s] | _ => []) ++ availTitles t := by
  cases e <;> rfl

/-- `availTitles` of the empty trace. -/
theorem availTitles_nil : availTitles [] = [] := rfl

/-- No kernel attachment call ever appears among the lines printed by
`print_avail_progs`. -/
theorem setLink_not_mem_print_avail (obj : BpfObject) (i fd : Int)
    (fl : Nat) : Event.callSetLink i fd fl ∉ print_avail_progs obj := by
  simp [print_avail_progs]

/-- The lines printed by `print_avail_progs` contain no external call. -/
theorem callsOf_print_avail (obj : BpfObject) :
    callsOf (print_avail_progs obj) = [] := by
  unfold callsOf print_avail_progs
  generalize (obj.programs.filter fun p => p.isXdp) = l
  induction l with
  | nil => rfl
  | cons p l ih => simp_all [List.filterMap_cons, callKind]

/-- `availTitles` distributes over trace concatenation. -/
theorem availTitles_append (s t : List Event) :
    availTitles (s ++ t) = availTitles s ++ availTitles t := by
  simp [availTitles]

/-- The titles collected from `print_avail_progs` are exactly the titles of
the XDP programs of the object, in order. -/
theorem availTitles_print_avail (obj : BpfObject) :
    availTitles (print_avail_progs obj)
      = (obj.programs.filter fun p => p.isXdp).map fun p => p.title := by
  unfold availTitles print_avail_progs
  generalize (obj.programs.filter fun p => p.isXdp) = l
  induction l with
  | nil => rfl
  | cons p l ih => simp_all [List.filterMap_cons]

/-- C9: on every run where the object loads but the requested progname is
not found, the command exits with the load/selection-failure code, the
titles printed by `print_avail_progs` in the trace are exactly the titles
of the XDP programs present in the object (round-trip with the
enumeration), and the error line names the requested progname. -/
theorem c9_selection_failure_lists_candidates (env : Env) (cfg : Config)
    (obj : BpfObject)
    (hi : cfg.ifindex ≠ -1) (hu : cfg.do_unload = false)
    (hl : env.loadObj cfg.filename = some obj)
    (hf : bpf_object__find_program_by_title obj cfg.progname = none) :
    (xdpMain env cfg).1 = EXIT_FAIL_BPF ∧
    availTitles (xdpMain env cfg).2
      = ((obj.programs.filter fun p => p.isXdp).map fun p => p.title) ∧
    Event.errLine ("ERR: finding progname: " ++ cfg.progname)
      ∈ (xdpMain env cfg).2 := by
  have hmain : xdpMain env cfg = (EXIT_FAIL_BPF,
      [Event.outLine ("filename:" ++ cfg.filename ++ " progname:"
          ++ cfg.progname),
       Event.callLoadObj cfg.filename,
       Event.outLine ("XXX: bpf_object__name:" ++ obj.name)]
        ++ print_avail_progs obj
        ++ [Event.callFindProg cfg.progname,
            Event.errLine ("ERR: finding progname: " ++ cfg.progname)]) := by
    unfold xdpMain
    simp [hi, hu, load_bpf_object_file, hl, hf]
  rw [hmain]
  refine ⟨rfl, ?_, by simp⟩
  simp only [availTitles_append, availTitles_cons, availTitles_nil,
    availTitles_print_avail]
  simp

/-- Witness for C9: the requested progname "xdp_drop" is absent from the
sample object, whose only XDP program is "xdp_pass". -/
theorem c9_witness :
    (xdpMain okEnv { goodConfig with progname := "xdp_drop" }).1
      = EXIT_FAIL_BPF ∧
    availTitles (xdpMain okEnv { goodConfig with progname := "xdp_drop" }).2
      = ((sampleObj.programs.filter fun p => p.isXdp).map fun p => p.title) ∧
    Event.errLine ("ERR: finding progname: " ++ "xdp_drop")
      ∈ (xdpMain okEnv { goodConfig with progname := "xdp_drop" }).2 :=
  c9_selection_failure_lists_candidates okEnv
    { goodConfig with progname := "xdp_drop" } sampleObj
    (by decide) rfl rfl (by decide)

/-- C10: when the selected program's fd is not strictly positive, the
command exits with the load/selection-failure exit code and no kernel
attachment call (`bpf_set_link_xdp_fd`) appears in the trace. -/
theorem c10_no_attach_without_valid_fd (env : Env) (cfg : Config)
    (obj : BpfObject) (p : BpfProgram)
    (hi : cfg.ifindex ≠ -1) (hu : cfg.do_unload = false)
    (hl : env.loadObj cfg.filename = some obj)
    (hf : bpf_object__find_program_by_title obj cfg.progname = some p)
    (hfd : p.fd ≤ 0) :
    (xdpMain env cfg).1 = EXIT_FAIL_BPF ∧
    ∀ i fd fl, Event.callSetLink i fd fl ∉ (xdpMain env cfg).2 := by
  have hmain : xdpMain env cfg = (EXIT_FAIL_BPF,
      [Event.outLine ("filename:" ++ cfg.filename ++ " progname:"
          ++ cfg.progname),
       Event.callLoadObj cfg.filename,
       Event.outLine ("XXX: bpf_object__name:" ++ obj.name)]
        ++ print_avail_progs obj
        ++ [Event.callFindProg cfg.progname,
            Event.errLine "ERR: bpf_program__fd failed"]) := by
    unfold xdpMain
    simp [hi, hu, load_bpf_object_file, hl, hf, hfd]
  rw [hmain]
  refine ⟨rfl, fun i fd fl hmem => ?_⟩
  simp only [List.mem_append, List.mem_cons, List.not_mem_nil,
    or_false] at hmem
  rcases hmem with ((h | h | h) | h) | h | h
  · exact Event.noConfusion h
  · exact Event.noConfusion h
  · exact Event.noConfusion h
  · exact setLink_not_mem_print_avail obj i fd fl h
  · exact Event.noConfusion h
  · exact Event.noConfusion h

/-- An entry point whose fd is not strictly positive. -/
def badFdProg : BpfProgram := { title := "xdp_pass", isXdp := true, fd := 0 }

/-- An object holding only `badFdProg`. -/
def badFdObj : BpfObject := { name := "xdp_prog_kern", programs := [badFdProg] }

/-- An environment whose load yields `badFdObj`. -/
def badFdEnv : Env := { okEnv with loadObj := fun _ => some badFdObj }

/-- Witness for C10 at a program whose fd is 0. -/
theorem c10_witness :
    (xdpMain badFdEnv goodConfig).1 = EXIT_FAIL_BPF ∧
    Event.callSetLink 1 0 5 ∉ (xdpMain badFdEnv goodConfig).2 :=
  ⟨(c10_no_attach_without_valid_fd badFdEnv goodConfig badFdObj badFdProg
      (by decide) rfl rfl (by decide) (by decide)).1,
   (c10_no_attach_without_valid_fd badFdEnv goodConfig badFdObj badFdProg
      (by decide) rfl rfl (by decide) (by decide)).2 1 0 5⟩

/-- A run of `xdp_unload` performs exactly one external call. -/
theorem callsOf_xdp_unload (env : Env) (i : Int) (fl : Nat) :
    callsOf (xdp_unload env i fl).2 = [2] := by
  unfold xdp_unload
  by_cases h : env.setLink i (-1) fl < 0 <;>
    simp [h, callsOf, callKind]

/-- A run of `xdp_load` performs exactly one external call. -/
theorem callsOf_xdp_load (env : Env) (cfg : Config) (fd : Int) :
    callsOf (xdp_load env cfg fd).2 = [2] := by
  unfold xdp_load
  by_cases h : env.setLink cfg.ifindex fd cfg.xdp_flags < 0 <;>
    rcases hr : hintFor (-(env.setLink cfg.ifindex fd cfg.xdp_flags))
      with _ | s <;>
    simp [h, hr, callsOf, callKind]

/-- C7: strict operation order. Call kinds are encoded by `callKind`:
0 = bundle load, 1 = entry-point selection, 2 = kernel set-link
(attach/detach), 3 = post-attach info query. Mode resolution runs first
and performs no external call: on a ConfigError the whole command stops
with the empty trace, on success the core runs with the resolved bitmask.
When unload is requested (with a resolved interface) the core performs
exactly one external call — the detach set-link, whose fd argument is
always -1 — so the bundle is never loaded and no entry point selected;
otherwise the external calls performed form a prefix of
load → select → attach → info-query, with no reordering. -/
theorem c7_strict_operation_order (env : Env) (cfg : Config) (f : Flags) :
    (∀ e, resolve f = .error e →
      runCommand env f cfg = (EXIT_FAIL_OPTION, [])) ∧
    (∀ m, resolve f = .ok m →
      runCommand env f cfg = xdpMain env { cfg with xdp_flags := m }) ∧
    (cfg.do_unload = true → cfg.ifindex ≠ -1 →
      callsOf (xdpMain env cfg).2 = [2] ∧
      ∀ i fd fl, Event.callSetLink i fd fl ∈ (xdpMain env cfg).2 →
        fd = -1) ∧
    (cfg.do_unload = false →
      callsOf (xdpMain env cfg).2 <+: [0, 1, 2, 3]) := by
  refine ⟨fun e he => by simp [runCommand, he],
          fun m hm => by simp [runCommand, hm], ?_, ?_⟩
  · intro hu hi
    have hmain : xdpMain env cfg =
        ((xdp_unload env cfg.ifindex cfg.xdp_flags).1,
         [Event.outLine ("filename:" ++ cfg.filename ++ " progname:"
             ++ cfg.progname)]
           ++ (xdp_unload env cfg.ifindex cfg.xdp_flags).2) := by
      unfold xdpMain
      simp [hi, hu]
    rw [hmain]
    refine ⟨by simp [callsOf_append, callsOf_cons, callsOf_nil, callKind,
      callsOf_xdp_unload], ?_⟩
    intro i fd fl hmem
    unfold xdp_unload at hmem
    by_cases h : env.setLink cfg.ifindex (-1) cfg.xdp_flags < 0 <;>
      simp [h] at hmem <;>
      exact hmem.2.1
  · intro hu
    by_cases hi : cfg.ifindex = -1
    · have hc : callsOf (xdpMain env cfg).2 = [] := by
        simp [xdpMain, hi, callsOf, callKind]
      rw [hc]
      exact ⟨[0, 1, 2, 3], rfl⟩
    · rcases hl : env.loadObj cfg.filename with _ | obj
      · have hc : callsOf (xdpMain env cfg).2 = [0] := by
          simp [xdpMain, hi, hu, load_bpf_object_file, hl, callsOf, callKind]
        rw [hc]
        exact ⟨[1, 2, 3], rfl⟩
      · rcases hf : bpf_object__find_program_by_title obj cfg.progname
          with _ | p
        · have hc : callsOf (xdpMain env cfg).2 = [0, 1] := by
            have hmain : (xdpMain env cfg).2 =
                [Event.outLine ("filename:" ++ cfg.filename ++ " progname:"
                    ++ cfg.progname),
                 Event.callLoadObj cfg.filename,
                 Event.outLine ("XXX: bpf_object__name:" ++ obj.name)]
                  ++ print_avail_progs obj
                  ++ [Event.callFindProg cfg.progname,
                      Event.errLine ("ERR: finding progname: "
                        ++ cfg.progname)] := by
              unfold xdpMain
              simp [hi, hu, load_bpf_object_file, hl, hf]
            rw [hmain]
            simp only [callsOf_append, callsOf_cons, callsOf_nil,
              callsOf_print_avail, callKind]
            rfl
          rw [hc]
          exact ⟨[2, 3], rfl⟩
        · by_cases hfd : p.fd ≤ 0
          · have hc : callsOf (xdpMain env cfg).2 = [0, 1] := by
              have hmain : (xdpMain env cfg).2 =
                  [Event.outLine ("filename:" ++ cfg.filename ++ " progname:"
                      ++ cfg.progname),
                   Event.callLoadObj cfg.filename,
                   Event.outLine ("XXX: bpf_object__name:" ++ obj.name)]
                    ++ print_avail_progs obj
                    ++ [Event.callFindProg cfg.progname,
                        Event.errLine "ERR: bpf_program__fd failed"] := by
                unfold xdpMain
                simp [hi, hu, load_bpf_object_file, hl, hf, hfd]
              rw [hmain]
              simp only [callsOf_append, callsOf_cons, callsOf_nil,
                callsOf_print_avail, callKind]
              rfl
            rw [hc]
            exact ⟨[2, 3], rfl⟩
          · by_cases hs : env.setLink cfg.ifindex p.fd cfg.xdp_flags < 0
            · have hc : callsOf (xdpMain env cfg).2 = [0, 1, 2] := by
                have hmain : (xdpMain env cfg).2 =
                    [Event.outLine ("filename:" ++ cfg.filename
                        ++ " progname:" ++ cfg.progname),
                     Event.callLoadObj cfg.filename,
                     Event.outLine ("XXX: bpf_object__name:" ++ obj.name)]
                      ++ print_avail_progs obj
                      ++ [Event.callFindProg cfg.progname]
                      ++ (xdp_load env cfg p.fd).2 := by
                  unfold xdpMain
                  have h30 : (xdp_load env cfg p.fd).1 = EXIT_FAIL_XDP := by
                    unfold xdp_load
                    simp [hs]
                  simp [hi, hu, load_bpf_object_file, hl, hf, hfd, h30,
                    EXIT_FAIL_XDP]
                rw [hmain]
                simp only [callsOf_append, callsOf_cons, callsOf_nil,
                  callsOf_print_avail, callsOf_xdp_load, callKind]
                rfl
              rw [hc]
              exact ⟨[3], rfl⟩
            · by_cases hg : (env.getInfo p.fd).1 = 0
              · have hc : callsOf (xdpMain env cfg).2 = [0, 1, 2, 3] := by
                  have hmain : (xdpMain env cfg).2 =
                      [Event.outLine ("filename:" ++ cfg.filename
                          ++ " progname:" ++ cfg.progname),
                       Event.callLoadObj cfg.filename,
                       Event.outLine ("XXX: bpf_object__name:" ++ obj.name)]
                        ++ print_avail_progs obj
                        ++ [Event.callFindProg cfg.progname]
                        ++ (xdp_load env cfg p.fd).2
                        ++ [Event.callGetInfo p.fd,
                            Event.outLine ("Success: Loading XDP prog name:"
                              ++ (env.getInfo p.fd).2.name ++ " on device:"
                              ++ cfg.ifname)] := by
                    unfold xdpMain
                    have h0 : (xdp_load env cfg p.fd).1 = EXIT_OK := by
                      unfold xdp_load
                      simp [hs]
                    simp [hi, hu, load_bpf_object_file, hl, hf, hfd, h0,
                      EXIT_OK, hg]
                  rw [hmain]
                  simp only [callsOf_append, callsOf_cons, callsOf_nil,
                    callsOf_print_avail, callsOf_xdp_load, callKind]
                  rfl
                rw [hc]
              · have hc : callsOf (xdpMain env cfg).2 = [0, 1, 2, 3] := by
                  have hmain : (xdpMain env cfg).2 =
                      [Event.outLine ("filename:" ++ cfg.filename
                          ++ " progname:" ++ cfg.progname),
                       Event.callLoadObj cfg.filename,
                       Event.outLine ("XXX: bpf_object__name:" ++ obj.name)]
                        ++ print_avail_progs obj
                        ++ [Event.callFindProg cfg.progname]
                        ++ (xdp_load env cfg p.fd).2
                        ++ [Event.callGetInfo p.fd,
                            Event.errLine "ERR: can't get prog info"] := by
                    unfold xdpMain
                    have h0 : (xdp_load env cfg p.fd).1 = EXIT_OK := by
                      unfold xdp_load
                      simp [hs]
                    simp [hi, hu, load_bpf_object_file, hl, hf, hfd, h0,
                      EXIT_OK, hg]
                  rw [hmain]
                  simp only [callsOf_append, callsOf_cons, callsOf_nil,
                    callsOf_print_avail, callsOf_xdp_load, callKind]
                  rfl
                rw [hc]

/-- Witness for C7 at a successful run and at an unload run. -/
theorem c7_witness :
    runCommand okEnv ⟨true, true, true, true⟩ goodConfig
      = (EXIT_FAIL_OPTION, []) ∧
    callsOf (xdpMain okEnv { goodConfig with do_unload := true }).2 = [2] ∧
    callsOf (xdpMain okEnv goodConfig).2 <+: [0, 1, 2, 3] :=
  ⟨(c7_strict_operation_order okEnv goodConfig
      ⟨true, true, true, true⟩).1 "conflicting mode flags" rfl,
   ((c7_strict_operation_order okEnv { goodConfig with do_unload := true }
      ⟨true, true, true, true⟩).2.2.1 rfl (by decide)).1,
   (c7_strict_operation_order okEnv goodConfig
      ⟨true, true, true, true⟩).2.2.2 rfl⟩

/-- An environment where every call succeeds except the post-attach info
query, which fails with -1. -/
def badInfoEnv : Env :=
  { okEnv with getInfo := fun _ => (-1, { name := "", id := 0 }) }

/-- C2 counterexample: with `badInfoEnv` and `goodConfig` the attach call
succeeds (`setLink` returns 0 and the set-link call is in the trace), the
info query fails, and the process exit code is the query's error -1, not
the success exit code: the failure is escalated to overall command
failure, contradicting the claim that it stays a warning. -/
theorem c2_counterexample :
    badInfoEnv.setLink goodConfig.ifindex sampleProg.fd goodConfig.xdp_flags
      = 0 ∧
    Event.callSetLink 1 3 5 ∈ (xdpMain badInfoEnv goodConfig).2 ∧
    Event.callGetInfo 3 ∈ (xdpMain badInfoEnv goodConfig).2 ∧
    (xdpMain badInfoEnv goodConfig).1 = -1 ∧
    (xdpMain badInfoEnv goodConfig).1 ≠ EXIT_OK := by
  refine ⟨rfl, by decide, by decide, by decide, by decide⟩

/-- C2 amended: when attach succeeds and the post-attach metadata query
fails, the process prints the info error line and exits with the query's
(nonzero) return code — the failure is escalated to overall command
failure, not downgraded to a warning. -/
theorem c2_info_failure_is_escalated (env : Env) (cfg : Config)
    (obj : BpfObject) (p : BpfProgram)
    (hi : cfg.ifindex ≠ -1) (hu : cfg.do_unload = false)
    (hl : env.loadObj cfg.filename = some obj)
    (hf : bpf_object__find_program_by_title obj cfg.progname = some p)
    (hfd : 0 < p.fd)
    (ha : 0 ≤ env.setLink cfg.ifindex p.fd cfg.xdp_flags)
    (hg : (env.getInfo p.fd).1 ≠ 0) :
    (xdpMain env cfg).1 = (env.getInfo p.fd).1 ∧
    Event.errLine "ERR: can't get prog info" ∈ (xdpMain env cfg).2 := by
  have hfd' : ¬ p.fd ≤ 0 := not_le.mpr hfd
  have hs : ¬ env.setLink cfg.ifindex p.fd cfg.xdp_flags < 0 := not_lt.mpr ha
  have h0 : (xdp_load env cfg p.fd).1 = EXIT_OK := by
    unfold xdp_load
    simp [hs]
  have hmain : xdpMain env cfg = ((env.getInfo p.fd).1,
      [Event.outLine ("filename:" ++ cfg.filename ++ " progname:"
          ++ cfg.progname),
       Event.callLoadObj cfg.filename,
       Event.outLine ("XXX: bpf_object__name:" ++ obj.name)]
        ++ print_avail_progs obj
        ++ [Event.callFindProg cfg.progname]
        ++ (xdp_load env cfg p.fd).2
        ++ [Event.callGetInfo p.fd,
            Event.errLine "ERR: can't get prog info"]) := by
    unfold xdpMain
    simp [hi, hu, load_bpf_object_file, hl, hf, hfd', h0, EXIT_OK, hg]
  rw [hmain]
  exact ⟨rfl, by simp⟩

/-- Witness for the amended C2 at `badInfoEnv` and `goodConfig`. -/
theorem c2_witness :
    (xdpMain badInfoEnv goodConfig).1
      = (badInfoEnv.getInfo sampleProg.fd).1 ∧
    Event.errLine "ERR: can't get prog info"
      ∈ (xdpMain badInfoEnv goodConfig).2 :=
  c2_info_failure_is_escalated badInfoEnv goodConfig sampleObj sampleProg
    (by decide) rfl rfl (by decide) (by decide) (by decide) (by decide)

/-- An entry point of a non-XDP kind bearing the requested title. -/
def alienProg : BpfProgram := { title := "xdp_pass", isXdp := false, fd := 4 }

/-- A bundle whose only program is the non-XDP `alienProg`. -/
def mixedObj : BpfObject := { name := "mixed", programs := [alienProg] }

/-- C3 counterexample: on a bundle holding a non-XDP entry point titled
"xdp_pass", selection by title returns that non-XDP entry point even
though the candidate listing (which does filter on the XDP kind)
excludes it — so select does not restrict matching to entry points
compatible with the XDP hook type. -/
theorem c3_counterexample :
    bpf_object__find_program_by_title mixedObj "xdp_pass"
      = some alienProg ∧
    alienProg.isXdp = false ∧
    availTitles (print_avail_progs mixedObj) = [] := by
  refine ⟨by decide, rfl, rfl⟩

/-- C3 amended: the listed candidates are exactly the XDP-kind entry
points of the bundle (the listing does filter on the hook type), but
selection matches purely by title: whatever program it returns is a
member of the bundle bearing the requested title, with no constraint on
its kind. -/
theorem c3_select_matches_title_only (obj : BpfObject) (name : String)
    (p : BpfProgram)
    (hf : bpf_object__find_program_by_title obj name = some p) :
    availTitles (print_avail_progs obj)
      = ((obj.programs.filter fun q => q.isXdp).map fun q => q.title) ∧
    p ∈ obj.programs ∧ p.title = name := by
  have hf' : obj.programs.find? (fun q => q.title == name) = some p := hf
  refine ⟨availTitles_print_avail obj, ?_, ?_⟩
  · exact List.mem_of_find?_eq_some hf'
  · have hb := List.find?_some hf'
    exact eq_of_beq hb

/-- Witness for the amended C3 at the mixed bundle. -/
theorem c3_witness :
    availTitles (print_avail_progs mixedObj)
      = ((mixedObj.programs.filter fun q => q.isXdp).map fun q => q.title) ∧
    alienProg ∈ mixedObj.programs ∧ alienProg.title = "xdp_pass" :=
  c3_select_matches_title_only mixedObj "xdp_pass" alienProg (by decide)
